import Mathlib

/-!
Verification development for the izinho-chatbot service (`src/app.py`).

The development shallowly embeds the query-generation pipeline of the
Flask service: the dynamic-schema builder and its single-slot TTL cache
(`get_dynamic_schema`), the SQL prompt template (`PROMPT_TEMPLATE_SQL`),
the conversation-history linearization, the markdown fence extraction
performed with `re.search` on the raw model output, the `SELECT`-prefix
safety check, and the `/chat` orchestration (`chat_handler`).  External
collaborators (the generative model and the SQL engine) are passed in as
functions returning `Except`, mirroring Python calls that may raise.

Machine strings are Lean `String`s; backticks and apostrophes inside
string literals are written with `\x60` and `\x27` escapes.
-/

namespace Izinho

/-- Python whitespace as used by `str.strip` (ASCII part). -/
def isPySpace (c : Char) : Bool :=
  c = ' ' || c = '\t' || c = '\n' || c = '\r' || c = '\x0b' || c = '\x0c'

/-- `str.strip()` on a list of characters: drop leading and trailing whitespace. -/
def pyStripList (l : List Char) : List Char :=
  ((l.dropWhile isPySpace).reverse.dropWhile isPySpace).reverse

/-- `str.strip()` on strings. -/
def pyStrip (s : String) : String :=
  String.mk (pyStripList s.data)

/-- `str.upper()` (ASCII case mapping, which is what all claims exercise). -/
def pyUpper (s : String) : String :=
  String.mk (s.data.map Char.toUpper)

/-- Python rendering of an optional value inside an f-string:
`None` prints as `"None"`. -/
def pyStr : Option String → String
  | none => "None"
  | some s => s

/-- Python `str` of the list `db_result` of row dicts; each row is
abstracted by its textual `repr`. -/
def pyStrList (rows : List String) : String :=
  "[" ++ String.intercalate (", ") rows ++ "]"

/-! ## The fence extractor

`app.py` line 199 runs
`re.search(r"\x60\x60\x60(sql)?(.*)\x60\x60\x60", raw_response, re.DOTALL | re.IGNORECASE)`
and takes `match.group(2).strip()` when a match exists, else
`raw_response.strip()`.  The functions below are a direct operational
translation of that regex search: try each start position left to right
(`reSearchFence`); at a position starting with three backticks, greedily
consume an optional case-insensitive `sql` tag, then let the greedy
`(.*)` run to the *last* closing fence (`lastFenceSplit`). -/

/-- Does the list start with three backticks? -/
def isFenceStart : List Char → Bool
  | c1 :: c2 :: c3 :: _ => c1 = '\x60' && c2 = '\x60' && c3 = '\x60'
  | _ => false

/-- Is there an occurrence of three consecutive backticks anywhere? -/
def containsFence : List Char → Bool
  | [] => false
  | c :: rest => isFenceStart (c :: rest) || containsFence rest

/-- Consume a case-insensitive `sql` language tag (the regex group `(sql)?`). -/
def stripSqlTag : List Char → Option (List Char)
  | c1 :: c2 :: c3 :: rest =>
    if c1.toLower = 's' && c2.toLower = 'q' && c3.toLower = 'l' then some rest else none
  | _ => none

/-- Split the list at the *last* occurrence of three backticks, returning the
content before it — the behaviour of the greedy `(.*)` followed by the final
fence of the regex. -/
def lastFenceSplit : List Char → Option (List Char)
  | [] => none
  | c :: rest =>
    match lastFenceSplit rest with
    | some t => some (c :: t)
    | none => if isFenceStart (c :: rest) then some [] else none

/-- Try to match the fence regex anchored at the head of the list,
returning the capture of group 2. -/
def matchAt : List Char → Option (List Char)
  | c1 :: c2 :: c3 :: rest =>
    if c1 = '\x60' && c2 = '\x60' && c3 = '\x60' then
      match stripSqlTag rest with
      | some rest2 =>
        match lastFenceSplit rest2 with
        | some inner => some inner
        | none => lastFenceSplit rest
      | none => lastFenceSplit rest
    else none
  | _ => none

/-- `re.search` for the fence pattern: leftmost start position wins. -/
def reSearchFence : List Char → Option (List Char)
  | [] => none
  | c :: rest =>
    match matchAt (c :: rest) with
    | some inner => some inner
    | none => reSearchFence rest

/-- Query extraction on character lists: group 2 stripped when the regex
matches, the stripped input otherwise (lines 199–204 of `app.py`). -/
def extractList (raw : List Char) : List Char :=
  match reSearchFence raw with
  | some inner => pyStripList inner
  | none => pyStripList raw

/-- Query extraction on strings. -/
def extract (raw_response : String) : String :=
  String.mk (extractList raw_response.data)

/-- The safety check of `app.py` line 216:
`sql_query.upper().startswith("SELECT")`. -/
def validate_select (sql_query : String) : Bool :=
  List.isPrefixOf ("SELECT").data (pyUpper sql_query).data

/-! ## Schema discovery and the single-slot TTL cache -/

/-- One row of the `information_schema.columns` result consumed by
`get_dynamic_schema`. -/
structure SchemaRow where
  table_name : String
  column_name : String
  data_type : String
deriving DecidableEq

/-- One iteration of the formatting loop of `get_dynamic_schema`
(lines 59–67): the accumulator carries `current_table` and
`schema_description`. -/
def formatSchemaStep (acc : String × String) (row : SchemaRow) : String × String :=
  let acc2 :=
    if row.table_name ≠ acc.1 then
      (row.table_name,
       acc.2 ++ "\n- Tabela \x60" ++ row.table_name ++ "\x60 com colunas:")
    else acc
  (acc2.1, acc2.2 ++ " \"" ++ row.column_name ++ "\" (" ++ row.data_type ++ "),")

/-- The formatted schema description built from the metadata rows. -/
def formatSchema (rows : List SchemaRow) : String :=
  (rows.foldl formatSchemaStep (("", ""))).2

/-- The sentinel returned by `get_dynamic_schema` when the metadata query
fails (line 74). -/
def SCHEMA_ERROR_MSG : String := "Erro ao obter esquema do banco."

/-- Body of `get_dynamic_schema` (lines 47–74): the metadata query either
yields rows or raises; the broad `except` catches everything and returns the
sentinel, so the function is total and never propagates an exception. -/
def get_dynamic_schema_body (dbResult : Except String (List SchemaRow)) : String :=
  match dbResult with
  | Except.ok rows => formatSchema rows
  | Except.error _ => SCHEMA_ERROR_MSG

/-- The TTL of the cache decorating `get_dynamic_schema` (line 38). -/
def SCHEMA_TTL : Nat := 600

/-- Is the single cache slot still fresh at time `now`?  `cachetools`
considers an entry inserted at `t` valid while `now < t + ttl`. -/
def slotFresh (slot : Option (Nat × String)) (now : Nat) : Bool :=
  match slot with
  | some (t, _) => now < t + SCHEMA_TTL
  | none => false

/-- `@cached(cache=TTLCache(maxsize=1, ttl=600))` applied to a no-argument
function: on a fresh slot return the cached value untouched; otherwise run
the wrapped body once and store its result with the current time.  Returns
(value, new slot, whether the body ran). -/
def get_dynamic_schema_cached (fetch : Unit → String) (now : Nat)
    (slot : Option (Nat × String)) : String × Option (Nat × String) × Bool :=
  match slot with
  | some (t, v) =>
    if now < t + SCHEMA_TTL then (v, some (t, v), false)
    else
      let v2 := fetch ()
      (v2, some (now, v2), true)
  | none =>
    let v2 := fetch ()
    (v2, some (now, v2), true)

/-- A full `get_dynamic_schema()` call: the cache wrapped around the body,
with the metadata-query outcome supplied as `dbResult`. -/
def get_dynamic_schema_run (dbResult : Except String (List SchemaRow)) (now : Nat)
    (slot : Option (Nat × String)) : String × Option (Nat × String) × Bool :=
  get_dynamic_schema_cached (fun _ => get_dynamic_schema_body dbResult) now slot

/-! ## Prompt assembly -/

/-- The fixed security-rule sentence of item 4 of `PROMPT_TEMPLATE_SQL`. -/
def SECURITY_RULE_CLAUSE : String :=
  "4.  **Regra de Segurança**: As queries DEVEM ser filtradas pelo \x60companyId\x60 ou  \x60userId\x60 fornecido para garantir que o usuário só veja dados da sua empresa ou relacionado a ele."

/-- `PROMPT_TEMPLATE_SQL.format(...)` (lines 89–112 and 184–190): the
template text with the five placeholders substituted;
`{chat_history}`, `{db_schema}`, `{question}` appear once and
`{company_id}`, `{user_id}` twice each. -/
def PROMPT_TEMPLATE_SQL (chat_history db_schema company_id user_id question : String) :
    String :=
  "\nVocê é um assistente de banco de dados expert em PostgreSQL.\nSua tarefa é gerar uma query SQL a partir da pergunta de um usuário, seguindo regras estritas.\nGere APENAS a query SQL, sem nenhuma palavra ou explicação.\n\n---\nHISTÓRICO DA CONVERSA:\n"
  ++ chat_history
  ++ "\n---\n\nContexto e Regras:\n1.  **Regra de Sintaxe PostgreSQL CRÍTICA**: Todos os nomes de tabelas e colunas que contêm letras maiúsculas (camelCase) DEVEM ser colocados entre aspas duplas. Exemplo: \x60\"companyId\"\x60.\n2.  **Esquema do Banco de Dados**: "
  ++ db_schema
  ++ "\n3.  **Relações Importantes (Exemplo, adicione as suas)**:\n    - Se precisar cruzar dados de prédios com tarefas, use \x60JOIN buildings ON tasks.\"buildingId\" = buildings.id\x60.\n"
  ++ SECURITY_RULE_CLAUSE
  ++ " Use sempre a cláusula \x60WHERE \"companyId\" = \x27"
  ++ company_id
  ++ "\x27\x60 ou \x60WHERE \"userId\" = \x27"
  ++ user_id
  ++ "\x27\x60.\n5.  **Exemplo de Query Correta**: \x60SELECT COUNT(*) FROM buildings WHERE buildings.\"companyId\" = \x27some-company-id\x27;\x60\n\nPergunta MAIS RECENTE do Usuário: \""
  ++ question
  ++ "\"\nID da Empresa para o filtro: \x27"
  ++ company_id
  ++ "\x27\nID do Usuário para o filtro: \x27"
  ++ user_id
  ++ "\x27\n\nQuery SQL gerada:\n"

/-- `PROMPT_TEMPLATE_RESPONSE.format(...)` (lines 114–120 and 232–234). -/
def PROMPT_TEMPLATE_RESPONSE (question db_result : String) : String :=
  "\nVocê é um assistente amigável. Sua tarefa é transformar um resultado de banco de dados em uma frase completa e natural para o usuário.\nPergunta original do usuário: \""
  ++ question
  ++ "\"\nResultado do banco de dados: \""
  ++ db_result
  ++ "\"\n\nResposta para o usuário:\n"

/-! ## Conversation history -/

/-- A member of the `history` array of the request body; both keys are read
with `dict.get`, so each may be absent. -/
structure ChatMessage where
  sender : Option String
  text : Option String
deriving DecidableEq

/-- One iteration of the history-linearization loop of `chat_handler`
(lines 179–181): `chat_history_str += f"{sender}: {message.get('text')}\n"`
with `sender = "Usuário" if message.get("sender") == "user" else
"Assistente"`. -/
def chatHistoryStep (acc : String) (message : ChatMessage) : String :=
  let sender := if message.sender = some ("user") then "Usuário" else "Assistente"
  acc ++ sender ++ ": " ++ pyStr message.text ++ "\n"

/-- The history-linearization loop of `chat_handler` (lines 178–181),
starting from the empty accumulator. -/
def chatHistoryStr (history : List ChatMessage) : String :=
  List.foldl chatHistoryStep ("") history

/-! ## The chat handler -/

/-- The JSON body of a `/chat` request; `Option` marks key presence. -/
structure ChatData where
  question : Option String
  user_id : Option String
  company_id : Option String
  history : Option (List ChatMessage)
  session_id : Option String
deriving DecidableEq

/-- Outcome of one `chat_handler` invocation: HTTP status, body fields, and
a trace of every collaborator interaction (schema fetches, prompts sent to
the generative model, queries reaching the safety check, queries executed
against the database). -/
structure HandlerResult where
  status : Nat
  answer : Option String
  error : Option String
  schemaCalls : Nat
  genPrompts : List String
  checkedQueries : List String
  dbQueries : List String
deriving DecidableEq

/-- Error body of the 400 response (line 163). -/
def MISSING_PARAMS_MSG : String := "Parâmetros obrigatórios ausentes."

/-- Canned clarification answer for an empty extracted query (line 212). -/
def EMPTY_QUERY_ANSWER : String :=
  "Desculpe, não consegui formular uma busca com sua pergunta."

/-- The single generic error body of every 500 response (line 242). -/
def GENERIC_ERROR_MSG : String := "Desculpe, não consegui processar sua pergunta."

/-- The SQL-generation prompt that `chat_handler` sends for a given request
and schema (lines 177–190). -/
def handler_prompt_sql (db_schema : String) (data : ChatData) : String :=
  PROMPT_TEMPLATE_SQL (chatHistoryStr (data.history.getD []))
    db_schema (data.company_id.getD ("")) (data.user_id.getD (""))
    (data.question.getD (""))

/-- `chat_handler` (lines 158–242), with the generative model and the SQL
engine passed in as fallible collaborators.  The `try` block is modelled by
mapping every collaborator failure — and the `ValueError` raised by the
safety check — to the generic 500 response of the `except` clause. -/
def chat_handler (genContent : String → Except String String)
    (execQuery : String → Except String (List String))
    (get_schema : String) (data : ChatData) : HandlerResult :=
  if (data.question.isSome && data.user_id.isSome && data.company_id.isSome) = false then
    { status := 400, answer := none, error := some MISSING_PARAMS_MSG,
      schemaCalls := 0, genPrompts := [], checkedQueries := [], dbQueries := [] }
  else
    let prompt_sql := handler_prompt_sql get_schema data
    match genContent prompt_sql with
    | Except.error _ =>
      { status := 500, answer := none, error := some GENERIC_ERROR_MSG,
        schemaCalls := 1, genPrompts := [prompt_sql], checkedQueries := [], dbQueries := [] }
    | Except.ok raw_response =>
      let sql_query := extract raw_response
      if sql_query = "" then
        { status := 200, answer := some EMPTY_QUERY_ANSWER, error := none,
          schemaCalls := 1, genPrompts := [prompt_sql], checkedQueries := [], dbQueries := [] }
      else if validate_select sql_query = false then
        { status := 500, answer := none, error := some GENERIC_ERROR_MSG,
          schemaCalls := 1, genPrompts := [prompt_sql],
          checkedQueries := [sql_query], dbQueries := [] }
      else
        match execQuery sql_query with
        | Except.error _ =>
          { status := 500, answer := none, error := some GENERIC_ERROR_MSG,
            schemaCalls := 1, genPrompts := [prompt_sql],
            checkedQueries := [sql_query], dbQueries := [sql_query] }
        | Except.ok db_result =>
          let prompt_response :=
            PROMPT_TEMPLATE_RESPONSE (data.question.getD ("")) (pyStrList db_result)
          match genContent prompt_response with
          | Except.error _ =>
            { status := 500, answer := none, error := some GENERIC_ERROR_MSG,
              schemaCalls := 1, genPrompts := [prompt_sql, prompt_response],
              checkedQueries := [sql_query], dbQueries := [sql_query] }
          | Except.ok final_text =>
            { status := 200, answer := some (pyStrip final_text), error := none,
              schemaCalls := 1, genPrompts := [prompt_sql, prompt_response],
              checkedQueries := [sql_query], dbQueries := [sql_query] }

/-! ## Lemmas about the fence extractor -/

/-- Three backticks, the fence delimiter. -/
def fence : List Char := ['\x60', '\x60', '\x60']

theorem lastFenceSplit_eq_none (l : List Char) (h : '\x60' ∉ l) :
    lastFenceSplit l = none := by
  induction l with
  | nil => rfl
  | cons c rest ih =>
    have hc : c ≠ '\x60' := fun hc => h (hc ▸ List.mem_cons_self c rest)
    have hr : '\x60' ∉ rest := fun hm => h (List.mem_cons_of_mem c hm)
    have hfs : isFenceStart (c :: rest) = false := by
      cases rest with
      | nil => rfl
      | cons x t =>
        cases t with
        | nil => rfl
        | cons y u => simp [isFenceStart, hc]
    simp [lastFenceSplit, ih hr, hfs]

theorem isFenceStart_one_backtick (post : List Char) (h : '\x60' ∉ post) :
    isFenceStart ('\x60' :: post) = false := by
  cases post with
  | nil => rfl
  | cons p t =>
    cases t with
    | nil => rfl
    | cons q u =>
      have hp : p ≠ '\x60' := fun hp => h (hp ▸ List.mem_cons_self p (q :: u))
      simp [isFenceStart, hp]

theorem isFenceStart_two_backticks (post : List Char) (h : '\x60' ∉ post) :
    isFenceStart ('\x60' :: '\x60' :: post) = false := by
  cases post with
  | nil => rfl
  | cons p t =>
    have hp : p ≠ '\x60' := fun hp => h (hp ▸ List.mem_cons_self p t)
    simp [isFenceStart, hp]

theorem lastFenceSplit_cons (c : Char) (rest : List Char) :
    lastFenceSplit (c :: rest) =
      match lastFenceSplit rest with
      | some t => some (c :: t)
      | none => if isFenceStart (c :: rest) then some [] else none := rfl

/-- The greedy closing fence: appending a fence and a fence-free `post`
makes `lastFenceSplit` return exactly the part before that fence. -/
theorem lastFenceSplit_append_fence (mid post : List Char) (h : '\x60' ∉ post) :
    lastFenceSplit (mid ++ '\x60' :: '\x60' :: '\x60' :: post) = some mid := by
  induction mid with
  | nil =>
    have h1 : lastFenceSplit post = none := lastFenceSplit_eq_none post h
    have h2 : lastFenceSplit ('\x60' :: post) = none := by
      rw [lastFenceSplit_cons, h1, isFenceStart_one_backtick post h]
      rfl
    have h3 : lastFenceSplit ('\x60' :: '\x60' :: post) = none := by
      rw [lastFenceSplit_cons, h2, isFenceStart_two_backticks post h]
      rfl
    show lastFenceSplit ('\x60' :: '\x60' :: '\x60' :: post) = some []
    rw [lastFenceSplit_cons, h3]
    simp [isFenceStart]
  | cons c mid ih =>
    simp only [List.cons_append]
    rw [lastFenceSplit_cons]
    simp only [List.cons_append] at ih
    rw [ih]

theorem matchAt_none_of_head_ne (c : Char) (l : List Char) (hc : c ≠ '\x60') :
    matchAt (c :: l) = none := by
  cases l with
  | nil => rfl
  | cons x t =>
    cases t with
    | nil => rfl
    | cons y u => simp [matchAt, hc]

theorem reSearchFence_cons (c : Char) (rest : List Char) :
    reSearchFence (c :: rest) =
      match matchAt (c :: rest) with
      | some inner => some inner
      | none => reSearchFence rest := rfl

/-- The leftmost rule of `re.search`: a fence-free prefix is skipped. -/
theorem reSearchFence_append_left (pre s : List Char) (h : '\x60' ∉ pre) :
    reSearchFence (pre ++ s) = reSearchFence s := by
  induction pre with
  | nil => rfl
  | cons c pre ih =>
    have hc : c ≠ '\x60' := fun hc => h (hc ▸ List.mem_cons_self c pre)
    have hp : '\x60' ∉ pre := fun hm => h (List.mem_cons_of_mem c hm)
    rw [List.cons_append, reSearchFence_cons, matchAt_none_of_head_ne c _ hc]
    exact ih hp

theorem matchAt_none_of_not_fenceStart (l : List Char) (h : isFenceStart l = false) :
    matchAt l = none := by
  match l with
  | [] => rfl
  | [c] => rfl
  | [c, d] => rfl
  | c :: d :: e :: t =>
    simp only [isFenceStart] at h
    simp [matchAt, h]

theorem reSearchFence_none_of_no_fence (l : List Char) (h : containsFence l = false) :
    reSearchFence l = none := by
  induction l with
  | nil => rfl
  | cons c rest ih =>
    simp only [containsFence, Bool.or_eq_false_iff] at h
    rw [reSearchFence_cons, matchAt_none_of_not_fenceStart _ h.1]
    exact ih h.2

/-- A `mid` that does not carry a (case-insensitive) `sql` tag still carries
none after the closing fence is appended. -/
theorem stripSqlTag_append_fence (mid post : List Char)
    (h : (stripSqlTag mid).isSome = false) :
    stripSqlTag (mid ++ '\x60' :: '\x60' :: '\x60' :: post) = none := by
  match mid with
  | [] =>
    have hq : ('\x60'.toLower = 's') = False := by decide
    simp [stripSqlTag, hq]
  | [a] =>
    have hq : ('\x60'.toLower = 'q') = False := by decide
    simp [stripSqlTag, hq]
  | [a, b] =>
    have hq : ('\x60'.toLower = 'l') = False := by decide
    simp [stripSqlTag, hq]
  | a :: b :: c :: t =>
    cases hg : (a.toLower = 's' && b.toLower = 'q' && c.toLower = 'l') with
    | true => exfalso; simp [stripSqlTag, hg] at h
    | false => simp [stripSqlTag, hg]

/-- Computation of `matchAt` at a fence head. -/
theorem matchAt_fence_cons (rest : List Char) :
    matchAt ('\x60' :: '\x60' :: '\x60' :: rest) =
      match stripSqlTag rest with
      | some rest2 =>
        (match lastFenceSplit rest2 with
         | some inner => some inner
         | none => lastFenceSplit rest)
      | none => lastFenceSplit rest := by
  simp [matchAt]

/-- C2.  The claim says extraction returns the inner text of the *first*
fenced block.  The regex `(.*)` is greedy under `re.DOTALL`, so with several
fenced blocks the capture runs from the first opening fence to the *last*
closing fence; on `"\x60\x60\x60a\x60\x60\x60 b \x60\x60\x60c\x60\x60\x60"`
the code yields `"a\x60\x60\x60 b \x60\x60\x60c"`, not the first block's
inner text `"a"`. -/
theorem c2_counterexample :
    extract ("\x60\x60\x60a\x60\x60\x60 b \x60\x60\x60c\x60\x60\x60")
        = ("a\x60\x60\x60 b \x60\x60\x60c")
      ∧ ¬ extract ("\x60\x60\x60a\x60\x60\x60 b \x60\x60\x60c\x60\x60\x60") = ("a") := by
  constructor
  · rfl
  · decide

/-- C2 (amended).  For a raw output of shape
`pre ++ fence ++ mid ++ fence ++ post` with backtick-free `pre` and `post`,
extraction returns `mid` trimmed — `mid` may itself contain further fences,
i.e. the capture spans from the first opening fence to the last closing
fence rather than stopping at the first block.  This holds with no language
tag (first conjunct, `mid` not starting with a tag) and with an `sql` tag on
the fence (second conjunct).  A raw output with no fence is returned
trimmed (third conjunct). -/
theorem c2_extract_greedy_fence (pre mid post raw : List Char)
    (hpre : '\x60' ∉ pre) (hpost : '\x60' ∉ post) :
    ((stripSqlTag mid).isSome = false →
        extractList (pre ++ fence ++ mid ++ fence ++ post) = pyStripList mid)
    ∧ extractList (pre ++ fence ++ ('s' :: 'q' :: 'l' :: mid) ++ fence ++ post)
        = pyStripList mid
    ∧ (containsFence raw = false → extractList raw = pyStripList raw) := by
  refine ⟨fun htag => ?_, ?_, fun hraw => ?_⟩
  · have hm : matchAt ('\x60' :: '\x60' :: '\x60' ::
        (mid ++ '\x60' :: '\x60' :: '\x60' :: post)) = some mid := by
      rw [matchAt_fence_cons, stripSqlTag_append_fence mid post htag]
      rw [lastFenceSplit_append_fence mid post hpost]
    have harg : pre ++ fence ++ mid ++ fence ++ post
        = pre ++ ('\x60' :: '\x60' :: '\x60' ::
            (mid ++ '\x60' :: '\x60' :: '\x60' :: post)) := by
      simp [fence]
    rw [harg]
    simp only [extractList]
    rw [reSearchFence_append_left _ _ hpre, reSearchFence_cons, hm]
  · have htag2 : stripSqlTag ('s' :: 'q' :: 'l' ::
        (mid ++ '\x60' :: '\x60' :: '\x60' :: post))
          = some (mid ++ '\x60' :: '\x60' :: '\x60' :: post) := by
      simp [stripSqlTag]
    have hm : matchAt ('\x60' :: '\x60' :: '\x60' :: ('s' :: 'q' :: 'l' ::
        (mid ++ '\x60' :: '\x60' :: '\x60' :: post))) = some mid := by
      rw [matchAt_fence_cons, htag2]
      simp only [lastFenceSplit_append_fence mid post hpost]
    have harg : pre ++ fence ++ ('s' :: 'q' :: 'l' :: mid) ++ fence ++ post
        = pre ++ ('\x60' :: '\x60' :: '\x60' :: ('s' :: 'q' :: 'l' ::
            (mid ++ '\x60' :: '\x60' :: '\x60' :: post))) := by
      simp [fence]
    rw [harg]
    simp only [extractList]
    rw [reSearchFence_append_left _ _ hpre, reSearchFence_cons, hm]
  · simp only [extractList]
    rw [reSearchFence_none_of_no_fence raw hraw]

/-- Witness for `c2_extract_greedy_fence` at a concrete decomposition:
`"x"` before the fence, `"a"` inside, `"y"` after. -/
theorem c2_extract_greedy_fence_witness :
    extractList (['x'] ++ fence ++ ['a'] ++ fence ++ ['y']) = pyStripList ['a'] :=
  (c2_extract_greedy_fence ['x'] ['a'] ['y'] [] (by decide) (by decide)).1 (by decide)

/-! ## Substring containment -/

/-- `t` occurs verbatim inside `s`. -/
def ContainsStr (s t : String) : Prop :=
  ∃ a b, s = a ++ t ++ b

theorem ContainsStr.refl (t : String) : ContainsStr t t :=
  ⟨"", "", by rw [String.empty_append, String.append_empty]⟩

theorem ContainsStr.appendL {s t : String} (u : String) (h : ContainsStr s t) :
    ContainsStr (s ++ u) t := by
  obtain ⟨a, b, hab⟩ := h
  exact ⟨a, b ++ u, by rw [hab]; simp [String.append_assoc]⟩

theorem ContainsStr.appendR {s t : String} (u : String) (h : ContainsStr s t) :
    ContainsStr (u ++ s) t := by
  obtain ⟨a, b, hab⟩ := h
  exact ⟨u ++ a, b, by rw [hab]; simp [String.append_assoc]⟩

/-! ## Claim-level notions -/

/-- Modelled from the wording of claim C1: the case-insensitive *first
token* of a text, i.e. its first maximal whitespace-free run of characters,
uppercased. -/
def claimFirstToken (s : String) : String :=
  String.mk (((s.data.dropWhile isPySpace).takeWhile (fun c => !isPySpace c)).map
    Char.toUpper)

/-- A well-formed request body used by the concrete witnesses. -/
def sampleData : ChatData :=
  { question := some ("quantos prédios eu tenho?"), user_id := some ("u1"),
    company_id := some ("c1"), history := none, session_id := none }

/-- C1.  The claim requires the validator to accept exactly the queries
whose case-insensitive *first token* is `SELECT` and to raise
`UnsafeQueryError` — never reaching the executor — on every other non-empty
text.  The code only checks `sql_query.upper().startswith("SELECT")`, a
prefix test: on the extracted query `"SELECTED 1"`, whose first token is
`SELECTED`, the check passes, the query is handed to the executor, and the
request succeeds with status 200. -/
theorem c1_counterexample :
    claimFirstToken (extract ("SELECTED 1")) ≠ ("SELECT")
    ∧ extract ("SELECTED 1") ≠ ("")
    ∧ (chat_handler (fun _ => Except.ok ("SELECTED 1"))
        (fun _ => Except.ok []) ("") sampleData).dbQueries = [("SELECTED 1")]
    ∧ (chat_handler (fun _ => Except.ok ("SELECTED 1"))
        (fun _ => Except.ok []) ("") sampleData).status = 200 := by
  refine ⟨by decide, by decide, ?_, ?_⟩ <;> rfl

/-- C1 (amended).  For every non-empty extracted query string, validation
accepts it — and the query is handed to the executor — if and only if its
uppercased text *starts with* `SELECT` (the first token may be longer, e.g.
`SELECTED`); every other non-empty extracted query raises the unsafe-query
`ValueError`, which surfaces as the generic 500 response with no database
call. -/
theorem c1_validate_prefix_select (genContent : String → Except String String)
    (execQuery : String → Except String (List String))
    (get_schema : String) (data : ChatData) (raw : String)
    (hq : data.question.isSome = true) (hu : data.user_id.isSome = true)
    (hc : data.company_id.isSome = true)
    (hg : genContent (handler_prompt_sql get_schema data) = Except.ok raw)
    (hne : ¬ extract raw = ("")) :
    (validate_select (extract raw) = true →
      (chat_handler genContent execQuery get_schema data).dbQueries = [extract raw])
    ∧ (validate_select (extract raw) = false →
        (chat_handler genContent execQuery get_schema data).status = 500
        ∧ (chat_handler genContent execQuery get_schema data).dbQueries = []
        ∧ (chat_handler genContent execQuery get_schema data).checkedQueries
            = [extract raw]
        ∧ (chat_handler genContent execQuery get_schema data).error
            = some GENERIC_ERROR_MSG) := by
  have hguard : (data.question.isSome && data.user_id.isSome && data.company_id.isSome)
      = true := by rw [hq, hu, hc]; rfl
  constructor
  · intro hv
    rcases hE : execQuery (extract raw) with e2 | rows
    · simp [chat_handler, hguard, hg, hne, hv, hE]
    · rcases hG : genContent (PROMPT_TEMPLATE_RESPONSE (data.question.getD (""))
          (pyStrList rows)) with e3 | f
      · simp [chat_handler, hguard, hg, hne, hv, hE, hG]
      · simp [chat_handler, hguard, hg, hne, hv, hE, hG]
  · intro hv
    simp [chat_handler, hguard, hg, hne, hv]

/-- Witness for `c1_validate_prefix_select`: a generator returning
`"SELECT 1"` leads to exactly that query being executed. -/
theorem c1_validate_prefix_select_witness :
    (chat_handler (fun _ => Except.ok ("SELECT 1")) (fun _ => Except.ok [])
      ("") sampleData).dbQueries = [extract ("SELECT 1")] :=
  (c1_validate_prefix_select (fun _ => Except.ok ("SELECT 1"))
    (fun _ => Except.ok []) ("") sampleData ("SELECT 1")
    rfl rfl rfl rfl (by decide)).1 (by decide)

/-- C3.  Every pipeline failure after the request is accepted returns
status 500 with the single fixed generic error message and no `answer`
field — so neither the underlying exception text nor the generated query
text can appear in the body.  Conjunct 1: every 500 response carries
exactly the generic body.  Conjunct 2: a failure of the first generation
call yields the 500 with no database call.  Conjunct 3: a safety-validation
failure — e.g. the candidate is `DROP TABLE users;` — yields the 500 and no
database query is executed.  Conjunct 4: an execution failure yields the
500.  Conjunct 5: a failure of the answer-generation call yields the 500. -/
theorem c3_generic_error_no_leak (genContent : String → Except String String)
    (execQuery : String → Except String (List String))
    (get_schema : String) (data : ChatData) (raw : String) (rows : List String) :
    ((chat_handler genContent execQuery get_schema data).status = 500 →
      (chat_handler genContent execQuery get_schema data).error
          = some GENERIC_ERROR_MSG
      ∧ (chat_handler genContent execQuery get_schema data).answer = none)
    ∧ (data.question.isSome = true → data.user_id.isSome = true →
       data.company_id.isSome = true →
       ∀ e, genContent (handler_prompt_sql get_schema data) = Except.error e →
       (chat_handler genContent execQuery get_schema data).status = 500
       ∧ (chat_handler genContent execQuery get_schema data).error
           = some GENERIC_ERROR_MSG
       ∧ (chat_handler genContent execQuery get_schema data).answer = none
       ∧ (chat_handler genContent execQuery get_schema data).dbQueries = [])
    ∧ (data.question.isSome = true → data.user_id.isSome = true →
       data.company_id.isSome = true →
       genContent (handler_prompt_sql get_schema data) = Except.ok raw →
       ¬ extract raw = ("") → validate_select (extract raw) = false →
       (chat_handler genContent execQuery get_schema data).status = 500
       ∧ (chat_handler genContent execQuery get_schema data).dbQueries = []
       ∧ (chat_handler genContent execQuery get_schema data).error
           = some GENERIC_ERROR_MSG)
    ∧ (data.question.isSome = true → data.user_id.isSome = true →
       data.company_id.isSome = true →
       genContent (handler_prompt_sql get_schema data) = Except.ok raw →
       ¬ extract raw = ("") → validate_select (extract raw) = true →
       ∀ e, execQuery (extract raw) = Except.error e →
       (chat_handler genContent execQuery get_schema data).status = 500
       ∧ (chat_handler genContent execQuery get_schema data).error
           = some GENERIC_ERROR_MSG
       ∧ (chat_handler genContent execQuery get_schema data).answer = none)
    ∧ (data.question.isSome = true → data.user_id.isSome = true →
       data.company_id.isSome = true →
       genContent (handler_prompt_sql get_schema data) = Except.ok raw →
       ¬ extract raw = ("") → validate_select (extract raw) = true →
       execQuery (extract raw) = Except.ok rows →
       ∀ e, genContent (PROMPT_TEMPLATE_RESPONSE (data.question.getD (""))
           (pyStrList rows)) = Except.error e →
       (chat_handler genContent execQuery get_schema data).status = 500
       ∧ (chat_handler genContent execQuery get_schema data).error
           = some GENERIC_ERROR_MSG
       ∧ (chat_handler genContent execQuery get_schema data).answer = none) := by
  refine ⟨?_, ?_, ?_, ?_, ?_⟩
  · intro h500
    cases hguard : (data.question.isSome && data.user_id.isSome
        && data.company_id.isSome) with
    | false => simp [chat_handler, hguard] at h500
    | true =>
      rcases hg : genContent (handler_prompt_sql get_schema data) with e | raw2
      · simp [chat_handler, hguard, hg]
      · by_cases hne : extract raw2 = ("")
        · simp [chat_handler, hguard, hg, hne] at h500
        · cases hv : validate_select (extract raw2) with
          | false => simp [chat_handler, hguard, hg, hne, hv]
          | true =>
            rcases hE : execQuery (extract raw2) with e2 | rows2
            · simp [chat_handler, hguard, hg, hne, hv, hE]
            · rcases hG : genContent (PROMPT_TEMPLATE_RESPONSE
                  (data.question.getD ("")) (pyStrList rows2)) with e3 | f
              · simp [chat_handler, hguard, hg, hne, hv, hE, hG]
              · simp [chat_handler, hguard, hg, hne, hv, hE, hG] at h500
  · intro hq hu hc e hg
    have hguard : (data.question.isSome && data.user_id.isSome
        && data.company_id.isSome) = true := by rw [hq, hu, hc]; rfl
    simp [chat_handler, hguard, hg]
  · intro hq hu hc hg hne hv
    have hguard : (data.question.isSome && data.user_id.isSome
        && data.company_id.isSome) = true := by rw [hq, hu, hc]; rfl
    simp [chat_handler, hguard, hg, hne, hv]
  · intro hq hu hc hg hne hv e hE
    have hguard : (data.question.isSome && data.user_id.isSome
        && data.company_id.isSome) = true := by rw [hq, hu, hc]; rfl
    simp [chat_handler, hguard, hg, hne, hv, hE]
  · intro hq hu hc hg hne hv hE e hG
    have hguard : (data.question.isSome && data.user_id.isSome
        && data.company_id.isSome) = true := by rw [hq, hu, hc]; rfl
    simp [chat_handler, hguard, hg, hne, hv, hE, hG]

/-- Witness for `c3_generic_error_no_leak`, exercising every failure kind
at concrete inputs: the generator emits `DROP TABLE users;` (safety
failure: generic 500, no database call); the generation call itself fails
(generic 500); the database rejects `SELECT 1` (generic 500); the
answer-generation call fails after a successful execution (generic 500). -/
theorem c3_generic_error_no_leak_witness :
    (chat_handler (fun _ => Except.ok ("DROP TABLE users;"))
        (fun _ => Except.ok []) ("") sampleData).status = 500
    ∧ (chat_handler (fun _ => Except.ok ("DROP TABLE users;"))
        (fun _ => Except.ok []) ("") sampleData).dbQueries = []
    ∧ (chat_handler (fun _ => Except.ok ("DROP TABLE users;"))
        (fun _ => Except.ok []) ("") sampleData).error = some GENERIC_ERROR_MSG
    ∧ (chat_handler (fun _ => Except.error ("quota exceeded"))
        (fun _ => Except.ok []) ("") sampleData).status = 500
    ∧ (chat_handler (fun _ => Except.error ("quota exceeded"))
        (fun _ => Except.ok []) ("") sampleData).error = some GENERIC_ERROR_MSG
    ∧ (chat_handler (fun _ => Except.ok ("SELECT 1"))
        (fun _ => Except.error ("unknown column")) ("") sampleData).status = 500
    ∧ (chat_handler (fun _ => Except.ok ("SELECT 1"))
        (fun _ => Except.error ("unknown column")) ("") sampleData).error
        = some GENERIC_ERROR_MSG
    ∧ (chat_handler
        (fun p => if p = PROMPT_TEMPLATE_RESPONSE
            (sampleData.question.getD ("")) (pyStrList [])
          then Except.error ("quota exceeded") else Except.ok ("SELECT 1"))
        (fun _ => Except.ok []) ("") sampleData).status = 500
    ∧ (chat_handler
        (fun p => if p = PROMPT_TEMPLATE_RESPONSE
            (sampleData.question.getD ("")) (pyStrList [])
          then Except.error ("quota exceeded") else Except.ok ("SELECT 1"))
        (fun _ => Except.ok []) ("") sampleData).error = some GENERIC_ERROR_MSG := by
  have h1 := (c3_generic_error_no_leak (fun _ => Except.ok ("DROP TABLE users;"))
    (fun _ => Except.ok []) ("") sampleData ("DROP TABLE users;") []).2.2.1
    rfl rfl rfl rfl (by decide) (by decide)
  have h2 := (c3_generic_error_no_leak (fun _ => Except.error ("quota exceeded"))
    (fun _ => Except.ok []) ("") sampleData ("") []).2.1
    rfl rfl rfl ("quota exceeded") rfl
  have h3 := (c3_generic_error_no_leak (fun _ => Except.ok ("SELECT 1"))
    (fun _ => Except.error ("unknown column")) ("") sampleData
    ("SELECT 1") []).2.2.2.1
    rfl rfl rfl rfl (by decide) (by decide) ("unknown column") rfl
  have h4 := (c3_generic_error_no_leak
    (fun p => if p = PROMPT_TEMPLATE_RESPONSE
        (sampleData.question.getD ("")) (pyStrList [])
      then Except.error ("quota exceeded") else Except.ok ("SELECT 1"))
    (fun _ => Except.ok []) ("") sampleData ("SELECT 1") []).2.2.2.2
    rfl rfl rfl (by rw [if_neg (by decide)]) (by decide) (by decide) rfl
    ("quota exceeded") (by rw [if_pos rfl])
  exact ⟨h1.1, h1.2.1, h1.2.2, h2.1, h2.2.1, h3.1, h3.2.1, h4.1, h4.2.1⟩

/-- C4.  When the extracted query is empty, the handler returns 200 with the
fixed clarification answer; the empty string never reaches the safety check,
no database call occurs, and no second generation call is made. -/
theorem c4_empty_query_clarification (genContent : String → Except String String)
    (execQuery : String → Except String (List String))
    (get_schema : String) (data : ChatData) (raw : String)
    (hq : data.question.isSome = true) (hu : data.user_id.isSome = true)
    (hc : data.company_id.isSome = true)
    (hg : genContent (handler_prompt_sql get_schema data) = Except.ok raw)
    (he : extract raw = ("")) :
    (chat_handler genContent execQuery get_schema data).status = 200
    ∧ (chat_handler genContent execQuery get_schema data).answer
        = some EMPTY_QUERY_ANSWER
    ∧ (chat_handler genContent execQuery get_schema data).error = none
    ∧ (chat_handler genContent execQuery get_schema data).checkedQueries = []
    ∧ (chat_handler genContent execQuery get_schema data).dbQueries = []
    ∧ (chat_handler genContent execQuery get_schema data).genPrompts
        = [handler_prompt_sql get_schema data] := by
  have hguard : (data.question.isSome && data.user_id.isSome
      && data.company_id.isSome) = true := by rw [hq, hu, hc]; rfl
  simp [chat_handler, hguard, hg, he]

/-- Witness for `c4_empty_query_clarification`: the generator returns an
empty fenced block, which extracts to the empty string. -/
theorem c4_empty_query_clarification_witness :
    (chat_handler (fun _ => Except.ok ("\x60\x60\x60\x60\x60\x60"))
        (fun _ => Except.ok []) ("") sampleData).status = 200
    ∧ (chat_handler (fun _ => Except.ok ("\x60\x60\x60\x60\x60\x60"))
        (fun _ => Except.ok []) ("") sampleData).answer = some EMPTY_QUERY_ANSWER
    ∧ (chat_handler (fun _ => Except.ok ("\x60\x60\x60\x60\x60\x60"))
        (fun _ => Except.ok []) ("") sampleData).error = none
    ∧ (chat_handler (fun _ => Except.ok ("\x60\x60\x60\x60\x60\x60"))
        (fun _ => Except.ok []) ("") sampleData).checkedQueries = []
    ∧ (chat_handler (fun _ => Except.ok ("\x60\x60\x60\x60\x60\x60"))
        (fun _ => Except.ok []) ("") sampleData).dbQueries = []
    ∧ (chat_handler (fun _ => Except.ok ("\x60\x60\x60\x60\x60\x60"))
        (fun _ => Except.ok []) ("") sampleData).genPrompts
        = [handler_prompt_sql ("") sampleData] :=
  c4_empty_query_clarification (fun _ => Except.ok ("\x60\x60\x60\x60\x60\x60"))
    (fun _ => Except.ok []) ("") sampleData ("\x60\x60\x60\x60\x60\x60")
    rfl rfl rfl rfl (by decide)

/-- C5.  A request missing any of `question`, `user_id`, `company_id`
returns 400 with the parameter-error message and triggers no collaborator
call: no schema fetch, no generation, no safety check, no execution. -/
theorem c5_missing_params_400 (genContent : String → Except String String)
    (execQuery : String → Except String (List String))
    (get_schema : String) (data : ChatData)
    (h : data.question.isSome = false ∨ data.user_id.isSome = false
      ∨ data.company_id.isSome = false) :
    (chat_handler genContent execQuery get_schema data).status = 400
    ∧ (chat_handler genContent execQuery get_schema data).error
        = some MISSING_PARAMS_MSG
    ∧ (chat_handler genContent execQuery get_schema data).answer = none
    ∧ (chat_handler genContent execQuery get_schema data).schemaCalls = 0
    ∧ (chat_handler genContent execQuery get_schema data).genPrompts = []
    ∧ (chat_handler genContent execQuery get_schema data).checkedQueries = []
    ∧ (chat_handler genContent execQuery get_schema data).dbQueries = [] := by
  have hguard : (data.question.isSome && data.user_id.isSome
      && data.company_id.isSome) = false := by
    rcases h with h | h | h <;> simp [h]
  simp [chat_handler, hguard]

/-- Witness for `c5_missing_params_400`: a request without `company_id`. -/
theorem c5_missing_params_400_witness :
    (chat_handler (fun _ => Except.ok ("SELECT 1")) (fun _ => Except.ok []) ("")
      { question := some ("q?"), user_id := some ("u1"), company_id := none,
        history := none, session_id := none }).status = 400
    ∧ (chat_handler (fun _ => Except.ok ("SELECT 1")) (fun _ => Except.ok []) ("")
      { question := some ("q?"), user_id := some ("u1"), company_id := none,
        history := none, session_id := none }).schemaCalls = 0 := by
  have h := c5_missing_params_400 (fun _ => Except.ok ("SELECT 1"))
    (fun _ => Except.ok []) ("")
    { question := some ("q?"), user_id := some ("u1"), company_id := none,
      history := none, session_id := none }
    (Or.inr (Or.inr rfl))
  exact ⟨h.1, h.2.2.2.1⟩

set_option maxRecDepth 8192 in
/-- C6.  The built query prompt always contains the literal tenant
identifier and the literal caller identifier substituted into the template,
and always contains the security-rule clause.  With empty history the
transcript block is empty and the template remains well-formed: the
transcript header is immediately followed by the closing delimiter. -/
theorem c6_prompt_contains_ids_and_security_rule
    (db_schema company_id user_id question : String) (history : List ChatMessage) :
    ContainsStr (PROMPT_TEMPLATE_SQL (chatHistoryStr history) db_schema company_id
      user_id question) company_id
    ∧ ContainsStr (PROMPT_TEMPLATE_SQL (chatHistoryStr history) db_schema company_id
      user_id question) user_id
    ∧ ContainsStr (PROMPT_TEMPLATE_SQL (chatHistoryStr history) db_schema company_id
      user_id question) SECURITY_RULE_CLAUSE
    ∧ chatHistoryStr [] = ("")
    ∧ ContainsStr (PROMPT_TEMPLATE_SQL (chatHistoryStr []) db_schema company_id
      user_id question) ("HISTÓRICO DA CONVERSA:\n\n---") := by
  refine ⟨?_, ?_, ?_, rfl, ?_⟩
  · simp only [PROMPT_TEMPLATE_SQL]
    repeat first
    | exact ContainsStr.appendR _ (ContainsStr.refl _)
    | apply ContainsStr.appendL
  · simp only [PROMPT_TEMPLATE_SQL]
    repeat first
    | exact ContainsStr.appendR _ (ContainsStr.refl _)
    | apply ContainsStr.appendL
  · simp only [PROMPT_TEMPLATE_SQL]
    repeat first
    | exact ContainsStr.appendR _ (ContainsStr.refl _)
    | apply ContainsStr.appendL
  · simp only [PROMPT_TEMPLATE_SQL, show chatHistoryStr [] = ("") from rfl]
    iterate 14 apply ContainsStr.appendL
    have hsplit :
        ("\nVocê é um assistente de banco de dados expert em PostgreSQL.\nSua tarefa é gerar uma query SQL a partir da pergunta de um usuário, seguindo regras estritas.\nGere APENAS a query SQL, sem nenhuma palavra ou explicação.\n\n---\nHISTÓRICO DA CONVERSA:\n"
          ++ ("")
          ++ "\n---\n\nContexto e Regras:\n1.  **Regra de Sintaxe PostgreSQL CRÍTICA**: Todos os nomes de tabelas e colunas que contêm letras maiúsculas (camelCase) DEVEM ser colocados entre aspas duplas. Exemplo: \x60\"companyId\"\x60.\n2.  **Esquema do Banco de Dados**: "
          : String)
          = "\nVocê é um assistente de banco de dados expert em PostgreSQL.\nSua tarefa é gerar uma query SQL a partir da pergunta de um usuário, seguindo regras estritas.\nGere APENAS a query SQL, sem nenhuma palavra ou explicação.\n\n---\n"
            ++ ("HISTÓRICO DA CONVERSA:\n\n---")
            ++ "\n\nContexto e Regras:\n1.  **Regra de Sintaxe PostgreSQL CRÍTICA**: Todos os nomes de tabelas e colunas que contêm letras maiúsculas (camelCase) DEVEM ser colocados entre aspas duplas. Exemplo: \x60\"companyId\"\x60.\n2.  **Esquema do Banco de Dados**: " := by
      decide
    rw [hsplit]
    exact ⟨_, _, rfl⟩

/-- C7.  Two `get_dynamic_schema` calls within the 600-second TTL window
return the identical description and the second runs no metadata re-fetch
(first conjunct); a call observing an expired or absent slot runs the
wrapped body exactly once and the rebuilt description replaces the single
cache slot (second conjunct). -/
theorem c7_schema_cache_ttl (fetch : Unit → String)
    (slot : Option (Nat × String)) (now1 now2 : Nat) :
    (slotFresh (get_dynamic_schema_cached fetch now1 slot).2.1 now2 = true →
      (get_dynamic_schema_cached fetch now2
          (get_dynamic_schema_cached fetch now1 slot).2.1).1
        = (get_dynamic_schema_cached fetch now1 slot).1
      ∧ (get_dynamic_schema_cached fetch now2
          (get_dynamic_schema_cached fetch now1 slot).2.1).2.2 = false
      ∧ (get_dynamic_schema_cached fetch now2
          (get_dynamic_schema_cached fetch now1 slot).2.1).2.1
        = (get_dynamic_schema_cached fetch now1 slot).2.1)
    ∧ (slotFresh slot now1 = false →
        (get_dynamic_schema_cached fetch now1 slot).2.2 = true
        ∧ (get_dynamic_schema_cached fetch now1 slot).2.1 = some (now1, fetch ())
        ∧ (get_dynamic_schema_cached fetch now1 slot).1 = fetch ()) := by
  constructor
  · intro hfresh
    cases slot with
    | none =>
      simp only [get_dynamic_schema_cached, slotFresh] at hfresh ⊢
      simp only [decide_eq_true_eq] at hfresh
      simp [hfresh]
    | some tv =>
      obtain ⟨t, v⟩ := tv
      by_cases h1 : now1 < t + SCHEMA_TTL
      · simp only [get_dynamic_schema_cached, h1, if_true, slotFresh] at hfresh ⊢
        simp only [decide_eq_true_eq] at hfresh
        simp [h1, hfresh]
      · simp only [get_dynamic_schema_cached, h1, if_false, slotFresh] at hfresh ⊢
        simp only [decide_eq_true_eq] at hfresh
        simp [h1, hfresh]
  · intro hmiss
    cases slot with
    | none => simp [get_dynamic_schema_cached]
    | some tv =>
      obtain ⟨t, v⟩ := tv
      have hmiss2 : ¬ (now1 < t + SCHEMA_TTL) := of_decide_eq_false hmiss
      simp [get_dynamic_schema_cached, hmiss2]

/-- Witness for `c7_schema_cache_ttl`: a first call on the empty slot
rebuilds and fills the slot; a second call 5 seconds later hits the cache. -/
theorem c7_schema_cache_ttl_witness :
    (get_dynamic_schema_cached (fun _ => "schema") 0 none).2.2 = true
    ∧ (get_dynamic_schema_cached (fun _ => "schema") 0 none).2.1 = some (0, "schema")
    ∧ (get_dynamic_schema_cached (fun _ => "schema") 5
        (get_dynamic_schema_cached (fun _ => "schema") 0 none).2.1).2.2 = false := by
  have h := c7_schema_cache_ttl (fun _ => "schema") none 0 5
  exact ⟨(h.2 rfl).1, (h.2 rfl).2.1, (h.1 (by decide)).2.1⟩

/-! ## Shape lemmas for the formatted schema -/

theorem formatSchemaStep_append (acc : String × String) (row : SchemaRow) :
    ∃ x, (formatSchemaStep acc row).2 = acc.2 ++ x := by
  by_cases hrow : row.table_name ≠ acc.1
  · refine ⟨"\n- Tabela \x60" ++ row.table_name ++ "\x60 com colunas:"
      ++ " \"" ++ row.column_name ++ "\" (" ++ row.data_type ++ "),", ?_⟩
    simp [formatSchemaStep, hrow, String.append_assoc]
  · refine ⟨" \"" ++ row.column_name ++ "\" (" ++ row.data_type ++ "),", ?_⟩
    simp [formatSchemaStep, hrow, String.append_assoc]

theorem foldl_schema_prefix (rows : List SchemaRow) :
    ∀ acc : String × String,
      ∃ r, (List.foldl formatSchemaStep acc rows).2 = acc.2 ++ r := by
  induction rows with
  | nil => intro acc; exact ⟨"", (String.append_empty _).symm⟩
  | cons row rows ih =>
    intro acc
    obtain ⟨x, hx⟩ := formatSchemaStep_append acc row
    obtain ⟨r, hr⟩ := ih (formatSchemaStep acc row)
    rw [List.foldl_cons]
    exact ⟨x ++ r, by rw [hr, hx, String.append_assoc]⟩

/-- A non-empty metadata result formats to a description that starts with a
new-table header (newline first) or a column item (space first). -/
theorem formatSchema_cons_shape (row : SchemaRow) (rows : List SchemaRow) :
    (∃ r : String, formatSchema (row :: rows) = "\n- Tabela \x60" ++ r)
    ∨ (∃ r : String, formatSchema (row :: rows) = " \"" ++ r) := by
  unfold formatSchema
  rw [List.foldl_cons]
  obtain ⟨r, hr⟩ := foldl_schema_prefix rows (formatSchemaStep (("", "")) row)
  by_cases hrow : row.table_name ≠ ("")
  · left
    have hstep : (formatSchemaStep (("", "")) row).2
        = "\n- Tabela \x60" ++ (row.table_name ++ ("\x60 com colunas: \""
            ++ (row.column_name ++ ("\" (" ++ (row.data_type ++ "),"))))) := by
      simp [formatSchemaStep, hrow, String.append_assoc]
    refine ⟨(row.table_name ++ ("\x60 com colunas: \""
      ++ (row.column_name ++ ("\" (" ++ (row.data_type ++ "),"))))) ++ r, ?_⟩
    rw [hr, hstep, String.append_assoc]
  · right
    have hstep : (formatSchemaStep (("", "")) row).2
        = " \"" ++ (row.column_name ++ ("\" (" ++ (row.data_type ++ "),"))) := by
      simp [formatSchemaStep, hrow, String.append_assoc]
    refine ⟨(row.column_name ++ ("\" (" ++ (row.data_type ++ "),"))) ++ r, ?_⟩
    rw [hr, hstep, String.append_assoc]

/-- Two strings whose first characters differ are distinct, even after
appending. -/
theorem append_head_ne (x r z : String) (c e : Char)
    (hx : x.data.head? = some c) (hz : z.data.head? = some e) (hne : ¬ c = e) :
    ¬ (x ++ r = z) := by
  intro he
  have hd := congrArg String.data he
  rw [String.data_append] at hd
  cases hx2 : x.data with
  | nil => rw [hx2] at hx; simp at hx
  | cons a t =>
    rw [hx2] at hx hd
    cases hz2 : z.data with
    | nil => rw [hz2] at hz; simp at hz
    | cons b u =>
      rw [hz2] at hz hd
      simp only [List.head?_cons, Option.some.injEq] at hx hz
      simp only [List.cons_append, List.cons.injEq] at hd
      exact hne (by rw [← hx, ← hz]; exact hd.1)

/-- C8.  `get_dynamic_schema` never propagates a metadata failure: it is a
total function of the query outcome, and it returns the sentinel
"schema unavailable" description exactly when the metadata query failed
(first conjunct).  The pipeline then continues with a degraded prompt: the
prompt built from the sentinel contains the sentinel verbatim in its schema
section (second conjunct). -/
theorem c8_schema_sentinel_on_failure (dbResult : Except String (List SchemaRow)) :
    (get_dynamic_schema_body dbResult = SCHEMA_ERROR_MSG ↔
      ∃ e, dbResult = Except.error e)
    ∧ (∀ ch cid uid q : String,
        ContainsStr (PROMPT_TEMPLATE_SQL ch SCHEMA_ERROR_MSG cid uid q)
          SCHEMA_ERROR_MSG) := by
  constructor
  · constructor
    · intro h
      cases dbResult with
      | error e => exact ⟨e, rfl⟩
      | ok rows =>
        exfalso
        cases rows with
        | nil => exact absurd h (by decide)
        | cons row rows2 =>
          have h2 : get_dynamic_schema_body (Except.ok (row :: rows2))
              = formatSchema (row :: rows2) := rfl
          rw [h2] at h
          rcases formatSchema_cons_shape row rows2 with ⟨r, hr⟩ | ⟨r, hr⟩
          · rw [hr] at h
            exact append_head_ne ("\n- Tabela \x60") r SCHEMA_ERROR_MSG '\n' 'E'
              rfl rfl (by decide) h
          · rw [hr] at h
            exact append_head_ne (" \"") r SCHEMA_ERROR_MSG ' ' 'E'
              rfl rfl (by decide) h
    · rintro ⟨e, rfl⟩
      rfl
  · intro ch cid uid q
    simp only [PROMPT_TEMPLATE_SQL]
    repeat first
    | exact ContainsStr.appendR _ (ContainsStr.refl _)
    | apply ContainsStr.appendL

/-- Witness for `c8_schema_sentinel_on_failure`: a failed metadata query
yields the sentinel. -/
theorem c8_schema_sentinel_on_failure_witness :
    get_dynamic_schema_body (Except.error ("connection refused")) = SCHEMA_ERROR_MSG :=
  (c8_schema_sentinel_on_failure (Except.error ("connection refused"))).1.mpr
    ⟨"connection refused", rfl⟩

/-- C9.  When the metadata query fails on a cache miss, the sentinel
description itself is stored in the single cache slot, so any
`get_dynamic_schema` call within the following 600 seconds returns the
sentinel without running the metadata query again — even if the database
has recovered (`dbResult2` is arbitrary, and the second call's ran-flag is
`false`). -/
theorem c9_sentinel_occupies_cache (e : String) (slot : Option (Nat × String))
    (now1 now2 : Nat) (dbResult2 : Except String (List SchemaRow))
    (h1 : slotFresh slot now1 = false) (h2 : now2 < now1 + SCHEMA_TTL) :
    (get_dynamic_schema_run (Except.error e) now1 slot).1 = SCHEMA_ERROR_MSG
    ∧ (get_dynamic_schema_run (Except.error e) now1 slot).2.1
        = some (now1, SCHEMA_ERROR_MSG)
    ∧ (get_dynamic_schema_run dbResult2 now2
        (get_dynamic_schema_run (Except.error e) now1 slot).2.1).1
        = SCHEMA_ERROR_MSG
    ∧ (get_dynamic_schema_run dbResult2 now2
        (get_dynamic_schema_run (Except.error e) now1 slot).2.1).2.2 = false := by
  cases slot with
  | none =>
    simp [get_dynamic_schema_run, get_dynamic_schema_cached,
      get_dynamic_schema_body, h2]
  | some tv =>
    obtain ⟨t, v⟩ := tv
    have h1b : ¬ (now1 < t + SCHEMA_TTL) := of_decide_eq_false h1
    simp [get_dynamic_schema_run, get_dynamic_schema_cached,
      get_dynamic_schema_body, h1b, h2]

/-- Witness for `c9_sentinel_occupies_cache`: the database is down at time
0 and recovered at time 10, yet the second call still serves the sentinel. -/
theorem c9_sentinel_occupies_cache_witness :
    (get_dynamic_schema_run (Except.error ("down")) 0 none).1 = SCHEMA_ERROR_MSG
    ∧ (get_dynamic_schema_run (Except.ok []) 10
        (get_dynamic_schema_run (Except.error ("down")) 0 none).2.1).1
        = SCHEMA_ERROR_MSG
    ∧ (get_dynamic_schema_run (Except.ok []) 10
        (get_dynamic_schema_run (Except.error ("down")) 0 none).2.1).2.2 = false := by
  have h := c9_sentinel_occupies_cache ("down") none 0 10 (Except.ok [])
    rfl (by decide)
  exact ⟨h.1, h.2.2.1, h.2.2.2⟩

/-! ## Spec-side rendering of the conversation transcript -/

/-- One transcript line, as the claim describes it: the sender label,
a colon, the turn text, a newline. -/
def chatLine (message : ChatMessage) : String :=
  (if message.sender = some ("user") then "Usuário" else "Assistente")
    ++ ": " ++ pyStr message.text ++ "\n"

/-- The transcript as the concatenation of per-turn lines, oldest first. -/
def joinLines : List ChatMessage → String
  | [] => ""
  | m :: ms => chatLine m ++ joinLines ms

theorem chatHistory_foldl_join (ms : List ChatMessage) :
    ∀ acc : String, List.foldl chatHistoryStep acc ms = acc ++ joinLines ms := by
  induction ms with
  | nil => intro acc; simp [joinLines, String.append_empty]
  | cons m ms ih =>
    intro acc
    rw [List.foldl_cons, ih]
    show chatHistoryStep acc m ++ joinLines ms = acc ++ joinLines (m :: ms)
    simp [chatHistoryStep, chatLine, joinLines, String.append_assoc]

/-- C10.  The transcript linearizes the supplied turns in order, oldest
first (first conjunct); a turn whose sender equals `"user"` is labeled
`Usuário` (second conjunct); every other turn — absent sender included — is
labeled `Assistente` (third conjunct). -/
theorem c10_history_linearization (history : List ChatMessage) :
    chatHistoryStr history = joinLines history
    ∧ (∀ t : Option String,
        chatLine { sender := some ("user"), text := t }
          = "Usuário: " ++ pyStr t ++ "\n")
    ∧ (∀ s t, ¬ s = some ("user") →
        chatLine { sender := s, text := t } = "Assistente: " ++ pyStr t ++ "\n") := by
  refine ⟨?_, ?_, ?_⟩
  · rw [chatHistoryStr, chatHistory_foldl_join, String.empty_append]
  · intro t
    have hsplit : ("Usuário: " : String) = "Usuário" ++ (": ") := by decide
    simp [chatLine, hsplit, String.append_assoc]
  · intro s t hs
    have hsplit : ("Assistente: " : String) = "Assistente" ++ (": ") := by decide
    simp [chatLine, hs, hsplit, String.append_assoc]

/-- Witness for `c10_history_linearization`: a turn with an absent sender
field is labeled `Assistente`. -/
theorem c10_history_linearization_witness :
    chatLine { sender := none, text := some ("olá") }
      = "Assistente: " ++ pyStr (some ("olá")) ++ "\n" :=
  (c10_history_linearization []).2.2 none (some ("olá")) (by decide)

end Izinho
